import Mathlib

/-!
Shallow embedding of the style-resolution and verbosity-gating core of
`prettiprint` (file `src/prettiprint/prettiprint.py`).

Python strings are modelled as Lean `String` (a list of characters); Python
`int` as `Int`.  Each rendering operation of the `ConsoleUtils` facade is
modelled as a pure function from the facade state (and the operation's
arguments) to `Except String (List Renderable)`: the list of calls handed to
the external Renderer collaborator, with `Except.error` modelling a raised
Python exception (`KeyError` from a mandatory style lookup, `ValueError`
from `int()`).  Rich-markup strings composed by the facade are carried
verbatim; the Renderer itself (layout, colour) is outside the embedded core.
Untyped (`Any`) content arguments are instantiated at strings resp. the
`PyData` type below, on which the source's branches (`Mapping` /
`list`-likes / leaf) are reproduced.
-/

/-- The characters Python `str.strip()` removes (ASCII whitespace). -/
def pyIsSpaceChar (c : Char) : Bool :=
  c = ' ' || c = '\t' || c = '\n' || c = '\x0d' || c = '\x0b' || c = '\x0c'

/-- Python `str.strip()`: drop whitespace from both ends. -/
def pyStrip (s : String) : String :=
  ⟨((s.data.dropWhile pyIsSpaceChar).reverse.dropWhile pyIsSpaceChar).reverse⟩

/-- Python `str.lower()` (ASCII). -/
def pyLower (s : String) : String := ⟨s.data.map Char.toLower⟩

/-- Python `str.upper()` (ASCII). -/
def pyUpper (s : String) : String := ⟨s.data.map Char.toUpper⟩

/-- Python `len(s)`. -/
def pyLen (s : String) : Nat := s.data.length

/-- Python `s * n` (string repetition). -/
def strRepeat (s : String) (n : Nat) : String := ⟨(List.replicate n s.data).flatten⟩

/-- Python `s[:n]` for `n ≥ 0`. -/
def pyTake (s : String) (n : Nat) : String := ⟨s.data.take n⟩

/-- Python format `f"{s:<w}"`: left-justify, padding with spaces on the right
(no truncation). -/
def pyLjust (s : String) (w : Nat) : String :=
  ⟨s.data ++ List.replicate (w - s.data.length) ' '⟩

/-- Python `int(s)` on a string: optional surrounding whitespace, optional
sign, one or more decimal digits; anything else raises `ValueError`
(modelled as `none`). -/
def pyIntOfString (s : String) : Option Int :=
  let t := (pyStrip s).data
  let core : Option (Bool × List Char) :=
    match t with
    | '-' :: rest => some (true, rest)
    | '+' :: rest => some (false, rest)
    | rest => some (false, rest)
  match core with
  | some (neg, ds) =>
      if ds ≠ [] && ds.all Char.isDigit then
        let m : Nat := ds.foldl (fun acc c => acc * 10 + (c.toNat - 48)) 0
        some (if neg then -(m : Int) else (m : Int))
      else
        none
  | none => none

/-- A style mapping: association list from style role to Rich style
descriptor, first match wins on lookup. -/
abbrev Styles := List (String × String)

/-- Dictionary lookup on an association list (first match wins). -/
def lookupKey {α : Type} (m : List (String × α)) (k : String) : Option α :=
  (m.find? (fun p => p.1 == k)).map Prod.snd

/-- Python `{**base, **over}`: `over`'s entries shadow `base`'s, role by
role.  Represented by prepending the overriding dict, with first-match
lookup. -/
def dictMerge (base over : Styles) : Styles := over ++ base

/-- The `"dark"` preset of `_PRESET_THEMES`. -/
def darkTheme : Styles :=
  [("accent", "bold white on #3b82f6"),
   ("rule", "dim"),
   ("success", "bold green"),
   ("info", "bold cyan"),
   ("warning", "bold yellow"),
   ("error", "bold red"),
   ("panel", "cyan"),
   ("header", "bold white on #0ea5e9"),
   ("table.header", "bold magenta"),
   ("key", "bold green"),
   ("value", "white"),
   ("code.border", "magenta"),
   ("event.INFO", "cyan"),
   ("event.SUCCESS", "green"),
   ("event.WARNING", "yellow"),
   ("event.ERROR", "red")]

/-- The `"light"` preset of `_PRESET_THEMES`. -/
def lightTheme : Styles :=
  [("accent", "bold black on #93c5fd"),
   ("rule", "grey66"),
   ("success", "green"),
   ("info", "blue"),
   ("warning", "dark_orange"),
   ("error", "red"),
   ("panel", "blue"),
   ("header", "bold black on #7dd3fc"),
   ("table.header", "bold purple"),
   ("key", "blue"),
   ("value", "black"),
   ("code.border", "purple"),
   ("event.INFO", "blue"),
   ("event.SUCCESS", "green"),
   ("event.WARNING", "dark_orange"),
   ("event.ERROR", "red")]

/-- The `"mono"` preset of `_PRESET_THEMES`. -/
def monoTheme : Styles :=
  [("accent", "reverse"),
   ("rule", "dim"),
   ("success", "bold"),
   ("info", "bold"),
   ("warning", "bold"),
   ("error", "bold"),
   ("panel", "white"),
   ("header", "reverse"),
   ("table.header", "bold"),
   ("key", "bold"),
   ("value", "white"),
   ("code.border", "white"),
   ("event.INFO", "white"),
   ("event.SUCCESS", "white"),
   ("event.WARNING", "white"),
   ("event.ERROR", "white")]

/-- `_PRESET_THEMES`, in source (insertion) order. -/
def presetThemes : List (String × Styles) :=
  [("dark", darkTheme), ("light", lightTheme), ("mono", monoTheme)]

/-- The `ValueError` message raised for an unknown theme name: it quotes
the offending name and enumerates the preset identifiers, comma-joined in
source order. -/
def unknownThemeMessage (theme : String) : String :=
  "Unknown theme \x27" ++ theme ++ "\x27. Choose from: " ++
    String.intercalate ", " (presetThemes.map Prod.fst)

/-- `ConsoleConfig` dataclass. -/
structure ConsoleConfig where
  theme : String
  emoji : Bool
  timestamps : Bool
  verbosity : Int
  enableTracebacks : Bool
deriving Repr, DecidableEq

/-- The mutable state owned by one `ConsoleUtils` instance: the merged
style mapping `_styles` and the `_config` dataclass.  (The wrapped Rich
`Console` object is the external Renderer collaborator and carries no
state of the embedded core.) -/
structure ConsoleState where
  styles : Styles
  config : ConsoleConfig
deriving Repr, DecidableEq

namespace ConsoleUtils

/-- `ConsoleUtils.__init__`: validates the theme name (case-insensitively),
merges `custom_styles` over the preset, and builds the initial state;
an unknown theme raises `ValueError` (`Except.error`). -/
def init (theme : String) (emoji : Bool) (timestamps : Bool)
    (verbosity : Int) (enableTracebacks : Bool)
    (customStyles : Option Styles) : Except String ConsoleState :=
  let themeName := pyLower theme
  match lookupKey presetThemes themeName with
  | none => Except.error (unknownThemeMessage theme)
  | some preset =>
      let merged := dictMerge preset (customStyles.getD [])
      Except.ok
        { styles := merged
          config :=
            { theme := themeName, emoji := emoji, timestamps := timestamps
              verbosity := verbosity, enableTracebacks := enableTracebacks } }

/-- `ConsoleUtils.mask_secret`: keep the first `keep` characters visible and
mask the remainder with `mask`. -/
def mask_secret (secret : String) (keep : Int) (mask : String) : String :=
  if keep ≤ 0 then
    strRepeat mask (pyLen secret)
  else if (pyLen secret : Int) ≤ keep then
    secret
  else
    pyTake secret keep.toNat ++ strRepeat mask (pyLen secret - keep.toNat)

/-- `ConsoleUtils.set_theme`: validate the name, re-resolve the merged
mapping; raises `ValueError` (`Except.error`) on an unknown name, before
any state is written. -/
def set_theme (st : ConsoleState) (theme : String)
    (customStyles : Option Styles) : Except String ConsoleState :=
  let name := pyLower theme
  match lookupKey presetThemes name with
  | none => Except.error (unknownThemeMessage theme)
  | some preset =>
      let merged := dictMerge preset (customStyles.getD [])
      Except.ok { styles := merged, config := { st.config with theme := name } }

/-- Run `set_theme` with Python's exception semantics made explicit: on an
error the caller's state is untouched and the exception message is
reported alongside it. -/
def runSetTheme (st : ConsoleState) (theme : String)
    (customStyles : Option Styles) : ConsoleState × Option String :=
  match set_theme st theme customStyles with
  | Except.ok st2 => (st2, none)
  | Except.error e => (st, some e)

/-- `ConsoleUtils.set_verbosity`: `self._config.verbosity = max(0, min(3, level))`. -/
def set_verbosity (st : ConsoleState) (level : Int) : ConsoleState :=
  { st with config := { st.config with verbosity := max 0 (min 3 level) } }

end ConsoleUtils

/-- The border-style constants of `rich.box` that `_resolve_box` can
return. -/
inductive BoxStyle where
  | ROUNDED
  | SQUARE
  | HEAVY
  | DOUBLE
  | ASCII
  | MINIMAL
  | MINIMAL_HEAVY_HEAD
  | MINIMAL_DOUBLE_HEAD
  | SIMPLE
  | SIMPLE_HEAVY
  | SIMPLE_HEAD
deriving Repr, DecidableEq

/-- The `box` argument of `panel`: `Union[str, box.Box]` (`None` is the
surrounding `Option`). -/
inductive BoxArg where
  | name (s : String)
  | box (b : BoxStyle)
deriving Repr, DecidableEq

/-- The key normalisation of `_resolve_box`:
`str(box_like).strip().upper().replace("-", "_").replace(" ", "_")`. -/
def normalizeBoxName (s : String) : String :=
  ⟨((pyStrip s).data.map Char.toUpper).map
    (fun c => if c = '-' then '_' else if c = ' ' then '_' else c)⟩

/-- The name→constant mapping of `_resolve_box` (common names + synonyms). -/
def boxNameMapping : List (String × BoxStyle) :=
  [("ROUNDED", BoxStyle.ROUNDED),
   ("ROUND", BoxStyle.ROUNDED),
   ("SQUARE", BoxStyle.SQUARE),
   ("HEAVY", BoxStyle.HEAVY),
   ("THICK", BoxStyle.HEAVY),
   ("DOUBLE", BoxStyle.DOUBLE),
   ("ASCII", BoxStyle.ASCII),
   ("MINIMAL", BoxStyle.MINIMAL),
   ("MINIMAL_HEAVY", BoxStyle.MINIMAL_HEAVY_HEAD),
   ("MINIMAL_DOUBLE", BoxStyle.MINIMAL_DOUBLE_HEAD),
   ("SIMPLE", BoxStyle.SIMPLE),
   ("SIMPLE_HEAVY", BoxStyle.SIMPLE_HEAVY),
   ("SIMPLE_HEAD", BoxStyle.SIMPLE_HEAD)]

/-- `ConsoleUtils._resolve_box`: accepts a `rich.box.Box` or a string name;
falls back to `ROUNDED` for `None` or any unknown name. -/
def resolve_box (boxLike : Option BoxArg) : BoxStyle :=
  match boxLike with
  | none => BoxStyle.ROUNDED
  | some (BoxArg.box b) => b
  | some (BoxArg.name s) =>
      (lookupKey boxNameMapping (normalizeBoxName s)).getD BoxStyle.ROUNDED

/-- Untyped Python data handed to `tree` / `json`: the source branches on
`Mapping`, `list`-like, or leaf (here: a string). -/
inductive PyData where
  | str (s : String)
  | list (xs : List PyData)
  | dict (xs : List (String × PyData))
deriving Repr

/-- A Rich `Tree` node: a label and its children, as built by
`_add_to_tree`. -/
inductive RTree where
  | node (label : String) (children : List RTree)
deriving Repr

/-- The `padding` argument of `panel`: `Union[int, tuple]`. -/
inductive Padding where
  | one (n : Int)
  | two (a b : Int)
  | four (a b c d : Int)
deriving Repr, DecidableEq

/-- The `size` argument of `spacer`: `Union[int, str]`. -/
inductive SpacerSize where
  | int (n : Int)
  | str (s : String)
deriving Repr, DecidableEq

/-- One call handed to the external Renderer (Rich `Console`), carrying
exactly the arguments the facade computes; markup strings verbatim. -/
inductive Renderable where
  | print (markup : String)
  | ruleLine (label : Option String) (style : Option String)
  | panelBox (title : Option String) (borderStyle : String) (shape : BoxStyle)
      (expand : Bool) (innerStyle : Option String) (padding : Option Padding)
      (content : String)
  | markdownBlock (text : String)
  | codePanel (title : Option String) (borderStyle : String)
      (codeText : String) (language : String) (wrap : Bool)
  | tableBlock (title : Option String) (headerStyle : String) (expand : Bool)
      (shape : BoxStyle) (headers : List String) (rows : List (List String))
  | dictPanel (title : Option String) (borderStyle : String) (expand : Bool)
      (keyStyle : String) (valueStyle : String) (rows : List (String × String))
  | jsonPanel (title : Option String) (borderStyle : String) (data : PyData)
  | treeBlock (root : RTree)
deriving Repr

/-- Result of one facade operation: the Renderer calls it makes, or a
raised exception's message. -/
abbrev PyResult := Except String (List Renderable)

/-- Python `self._styles[role]`: raises `KeyError` when the role is
absent. -/
def styleAt (styles : Styles) (role : String) : Except String String :=
  match lookupKey styles role with
  | some v => Except.ok v
  | none => Except.error ("KeyError: " ++ role)

/-- Python `x or default` on an optional string: `None` and the empty
string are falsy. -/
def pyOrStr (x : Option String) (d : String) : String :=
  match x with
  | none => d
  | some s => if s = "" then d else s

/-- Whether an operation produced at least one Renderer call. -/
def emits (r : PyResult) : Bool :=
  match r with
  | Except.ok l => !l.isEmpty
  | Except.error _ => false

namespace ConsoleUtils

/-- `ConsoleUtils.spacer`: keyword sizes small/medium/large (or s/m/l),
otherwise `int(size)`; prints that many empty lines.  Note: `spacer` has
no verbosity gate in the source. -/
def spacer (st : ConsoleState) (size : SpacerSize) : PyResult :=
  let lines : Except String Int :=
    match size with
    | SpacerSize.str s =>
        if s = "small" || s = "s" then Except.ok 1
        else if s = "medium" || s = "m" then Except.ok 2
        else if s = "large" || s = "l" then Except.ok 3
        else
          match pyIntOfString s with
          | some n => Except.ok n
          | none => Except.error ("ValueError: invalid literal for int(): " ++ s)
    | SpacerSize.int n => Except.ok n
  match lines with
  | Except.error e => Except.error e
  | Except.ok n =>
      let _ := st
      Except.ok (List.replicate n.toNat (Renderable.print ""))

/-- `ConsoleUtils.header`: gate on verbosity 0, then spacer / styled rule /
spacer (`style or "bold cyan"`). -/
def header (st : ConsoleState) (msg : String) (style : Option String) : PyResult :=
  if st.config.verbosity = 0 then Except.ok []
  else
    let sty := pyOrStr style "bold cyan"
    match spacer st (SpacerSize.int 1) with
    | Except.error e => Except.error e
    | Except.ok sp1 =>
        match spacer st (SpacerSize.int 1) with
        | Except.error e => Except.error e
        | Except.ok sp2 =>
            Except.ok (sp1 ++
              [Renderable.ruleLine (some ("[" ++ sty ++ "]" ++ msg ++ "[/]")) none] ++ sp2)

/-- `ConsoleUtils.rule`: gate on verbosity 0; label style defaults to
`"#cccccc"`, line style to the theme's `rule` role (default `"dim"`); an
empty label means a bare rule. -/
def rule (st : ConsoleState) (label : String) (labelStyle : Option String)
    (lineStyle : Option String) : PyResult :=
  if st.config.verbosity = 0 then Except.ok []
  else
    let ls := pyOrStr labelStyle "#cccccc"
    let line := pyOrStr lineStyle ((lookupKey st.styles "rule").getD "dim")
    if label ≠ "" then
      Except.ok [Renderable.ruleLine
        (some ("[" ++ ls ++ "]" ++ label ++ "[/" ++ ls ++ "]")) (some line)]
    else
      Except.ok [Renderable.ruleLine none (some line)]

/-- `ConsoleUtils.panel`: gate on verbosity 0; border style defaults to the
theme's `panel` role; `style` and `padding` forwarded only when provided. -/
def panel (st : ConsoleState) (message : String) (title : Option String)
    (style : Option String) (borderStyle : Option String)
    (boxArg : Option BoxArg) (expand : Bool) (padding : Option Padding) : PyResult :=
  if st.config.verbosity = 0 then Except.ok []
  else
    let bs : Except String String :=
      match borderStyle with
      | some s => if s = "" then styleAt st.styles "panel" else Except.ok s
      | none => styleAt st.styles "panel"
    match bs with
    | Except.error e => Except.error e
    | Except.ok b =>
        Except.ok [Renderable.panelBox title b (resolve_box boxArg) expand
          style padding message]

/-- `ConsoleUtils.markdown`: gate on verbosity 0, then print the Markdown
renderable. -/
def markdown (st : ConsoleState) (text : String) : PyResult :=
  if st.config.verbosity = 0 then Except.ok []
  else Except.ok [Renderable.markdownBlock text]

/-- `ConsoleUtils.code`: gate on verbosity 0; a syntax-highlighted block in
a panel bordered with the theme's `code.border` role. -/
def code (st : ConsoleState) (codeText : String) (language : String)
    (title : Option String) (wrap : Bool) : PyResult :=
  if st.config.verbosity = 0 then Except.ok []
  else
    match styleAt st.styles "code.border" with
    | Except.error e => Except.error e
    | Except.ok b => Except.ok [Renderable.codePanel title b codeText language wrap]

/-- `ConsoleUtils.success`: gate on verbosity 0, then an emoji-prefixed
markup line in the theme's `success` style. -/
def success (st : ConsoleState) (message : String) : PyResult :=
  if st.config.verbosity = 0 then Except.ok []
  else
    match styleAt st.styles "success" with
    | Except.error e => Except.error e
    | Except.ok s =>
        Except.ok [Renderable.print ("✅ [" ++ s ++ "]" ++ message ++ "[/" ++ s ++ "]")]

/-- `ConsoleUtils.info`. -/
def info (st : ConsoleState) (message : String) : PyResult :=
  if st.config.verbosity = 0 then Except.ok []
  else
    match styleAt st.styles "info" with
    | Except.error e => Except.error e
    | Except.ok s =>
        Except.ok [Renderable.print ("ℹ️ [" ++ s ++ "]" ++ message ++ "[/" ++ s ++ "]")]

/-- `ConsoleUtils.warning`. -/
def warning (st : ConsoleState) (message : String) : PyResult :=
  if st.config.verbosity = 0 then Except.ok []
  else
    match styleAt st.styles "warning" with
    | Except.error e => Except.error e
    | Except.ok s =>
        Except.ok [Renderable.print ("⚠️ [" ++ s ++ "]" ++ message ++ "[/" ++ s ++ "]")]

/-- `ConsoleUtils.error`. -/
def error (st : ConsoleState) (message : String) : PyResult :=
  if st.config.verbosity = 0 then Except.ok []
  else
    match styleAt st.styles "error" with
    | Except.error e => Except.error e
    | Except.ok s =>
        Except.ok [Renderable.print ("❌ [" ++ s ++ "]" ++ message ++ "[/" ++ s ++ "]")]

/-- The colour lookup of `event`:
`self._styles.get(f"event.{lvl}", self._styles["info"])` — note the
fallback `self._styles["info"]` is evaluated first (raising `KeyError`
if `info` itself is absent), then the `event.<LVL>` role wins when
present. -/
def eventColor (styles : Styles) (lvl : String) : Except String String :=
  match styleAt styles "info" with
  | Except.error e => Except.error e
  | Except.ok d => Except.ok ((lookupKey styles ("event." ++ lvl)).getD d)

/-- `ConsoleUtils.event`: verbosity gates (0 hides all, <2 hides events,
<3 hides DEBUG), then a markup line `[color]prefix[/]message` where the
prefix is `f"[{ts}] {lvl:<7} "` when a timestamp string is present and
`f"{lvl:<7} "` otherwise.  `now` is the formatted
`datetime.now().strftime("%Y-%m-%d %H:%M:%S")` value. -/
def event (st : ConsoleState) (now : String) (message : String)
    (level : String) : PyResult :=
  if st.config.verbosity = 0 then Except.ok []
  else
    let lvl := pyUpper level
    if st.config.verbosity < 2 then Except.ok []
    else if st.config.verbosity < 3 ∧ lvl = "DEBUG" then Except.ok []
    else
      let ts := if st.config.timestamps then now else ""
      match eventColor st.styles lvl with
      | Except.error e => Except.error e
      | Except.ok color =>
          let pfx :=
            if ts ≠ "" then "[" ++ ts ++ "] " ++ pyLjust lvl 7 ++ " "
            else pyLjust lvl 7 ++ " "
          Except.ok [Renderable.print ("[" ++ color ++ "]" ++ pfx ++ "[/]" ++ message)]

/-- `ConsoleUtils.table`: gate on verbosity 0; header style defaults to
the theme's `table.header` role; headers and cells pass through `str`
(identity on the string instantiation). -/
def table (st : ConsoleState) (headers : List String)
    (rows : List (List String)) (title : Option String)
    (headerStyle : Option String) (expand : Bool) (tableBox : BoxStyle) : PyResult :=
  if st.config.verbosity = 0 then Except.ok []
  else
    let hs : Except String String :=
      match headerStyle with
      | some s => if s = "" then styleAt st.styles "table.header" else Except.ok s
      | none => styleAt st.styles "table.header"
    match hs with
    | Except.error e => Except.error e
    | Except.ok h =>
        Except.ok [Renderable.tableBlock title h expand tableBox headers rows]

/-- `ConsoleUtils.dictionary`: gate on verbosity 0; a two-column grid
(`key` / `value` roles) inside a panel bordered with the `panel` role.
Values are modelled at the string instantiation of `Any`, on which
`_repr_value` is `str` (the identity). -/
def dictionary (st : ConsoleState) (data : List (String × String))
    (title : Option String) (expand : Bool) : PyResult :=
  if st.config.verbosity = 0 then Except.ok []
  else
    match styleAt st.styles "key" with
    | Except.error e => Except.error e
    | Except.ok k =>
        match styleAt st.styles "value" with
        | Except.error e => Except.error e
        | Except.ok v =>
            match styleAt st.styles "panel" with
            | Except.error e => Except.error e
            | Except.ok p =>
                Except.ok [Renderable.dictPanel title p expand k v data]

/-- `ConsoleUtils.json`: gate on verbosity 0; the JSON renderable in a
panel bordered with the `panel` role. -/
def json (st : ConsoleState) (data : PyData) (title : Option String) : PyResult :=
  if st.config.verbosity = 0 then Except.ok []
  else
    match styleAt st.styles "panel" with
    | Except.error e => Except.error e
    | Except.ok p => Except.ok [Renderable.jsonPanel title p data]

mutual

/-- `ConsoleUtils._add_to_tree`, functionally: the children appended to
the given node for object `obj` with optional `name`.  A mapping with no
label flattens into the parent; a list-like gets a `type (len)` label when
unnamed; a leaf becomes `label: value` or the bare value. -/
def addToTree (obj : PyData) (name : Option String) : List RTree :=
  let label :=
    match name with
    | some n => "[bold]" ++ n ++ "[/bold]"
    | none => ""
  match obj with
  | PyData.dict xs =>
      let kids := addToTreeDict xs
      if label = "" then kids else [RTree.node label kids]
  | PyData.list xs =>
      [RTree.node
        (if label = "" then "[bold]list[/bold] (" ++ toString xs.length ++ ")"
         else label)
        (addToTreeList 0 xs)]
  | PyData.str s =>
      [RTree.node (if label = "" then s else label ++ ": " ++ s) []]

/-- Children for a mapping's items, in order, each named by its key. -/
def addToTreeDict (xs : List (String × PyData)) : List RTree :=
  match xs with
  | [] => []
  | kv :: rest => addToTree kv.2 (some kv.1) ++ addToTreeDict rest

/-- Children for a list's items, named by `enumerate` indices. -/
def addToTreeList (i : Nat) (xs : List PyData) : List RTree :=
  match xs with
  | [] => []
  | v :: rest => addToTree v (some (toString i)) ++ addToTreeList (i + 1) rest

end

/-- `ConsoleUtils.tree`: gate on verbosity 0; the root label is the title
in the theme's `info` style, children built by `_add_to_tree`. -/
def tree (st : ConsoleState) (obj : PyData) (title : String) : PyResult :=
  if st.config.verbosity = 0 then Except.ok []
  else
    match styleAt st.styles "info" with
    | Except.error e => Except.error e
    | Except.ok i =>
        Except.ok [Renderable.treeBlock
          (RTree.node ("[" ++ i ++ "]" ++ title ++ "[/" ++ i ++ "]")
            (addToTree obj none))]

/-- `ConsoleUtils.key_value`: gate on verbosity 0; masks the value via
`mask_secret` when `secret=True`, then prints a `key: value` markup line
in the `key` / `value` roles. -/
def key_value (st : ConsoleState) (key : String) (value : String)
    (secret : Bool) (keep : Int) (mask : String) : PyResult :=
  if st.config.verbosity = 0 then Except.ok []
  else
    let display := if secret then mask_secret value keep mask else value
    match styleAt st.styles "key" with
    | Except.error e => Except.error e
    | Except.ok k =>
        match styleAt st.styles "value" with
        | Except.error e => Except.error e
        | Except.ok v =>
            Except.ok [Renderable.print
              ("[" ++ k ++ "]" ++ key ++ "[/]: [" ++ v ++ "]" ++ display ++ "[/]")]

/-- `ConsoleUtils.confirm`'s decision on the line read from terminal
input: strip and lower-case the response; empty means the default,
otherwise membership in `{"y", "yes", "true", "1"}`. -/
def confirm (default : Bool) (response : String) : Bool :=
  let resp := pyLower (pyStrip response)
  if resp = "" then default
  else resp = "y" || resp = "yes" || resp = "true" || resp = "1"

end ConsoleUtils

/-- A `ConsoleUtils` state on the `dark` preset with no custom styles, at
the given verbosity. -/
def darkState (v : Int) : ConsoleState :=
  { styles := darkTheme
    config :=
      { theme := "dark", emoji := true, timestamps := true, verbosity := v
        enableTracebacks := true } }

/-! ### Supporting lemmas -/

lemma flatten_replicate_singleton (c : Char) (n : Nat) :
    (List.replicate n [c]).flatten = List.replicate n c := by
  induction n with
  | zero => rfl
  | succ n ih => simp [List.replicate_succ, ih]

lemma strRepeat_singleton (c : Char) (n : Nat) :
    strRepeat ⟨[c]⟩ n = ⟨List.replicate n c⟩ := by
  simp [strRepeat, flatten_replicate_singleton]

lemma pyLower_eq_empty (s : String) : pyLower s = "" ↔ s = "" := by
  constructor <;> intro h
  · apply String.ext
    have h2 := congrArg String.data h
    simpa [pyLower] using h2
  · subst h; rfl

/-! ### Claim theorems -/

/-- Claim C3: `mask_secret` is total over all (string-modelled) inputs and
satisfies the masking contract: for `keep > 0` the length is preserved;
strings no longer than `keep` pass through unchanged; otherwise the first
`keep` characters are kept and the rest become the mask character; for
`keep ≤ 0` everything is masked. -/
theorem mask_secret_spec (s : String) (keep : Int) (c : Char) :
    (0 < keep → pyLen (ConsoleUtils.mask_secret s keep ⟨[c]⟩) = pyLen s)
  ∧ (0 < keep → (pyLen s : Int) ≤ keep →
      ConsoleUtils.mask_secret s keep ⟨[c]⟩ = s)
  ∧ (0 < keep → keep < (pyLen s : Int) →
      pyTake (ConsoleUtils.mask_secret s keep ⟨[c]⟩) keep.toNat = pyTake s keep.toNat
      ∧ (ConsoleUtils.mask_secret s keep ⟨[c]⟩).data.drop keep.toNat
          = List.replicate (pyLen s - keep.toNat) c)
  ∧ (keep ≤ 0 → ConsoleUtils.mask_secret s keep ⟨[c]⟩ = ⟨List.replicate (pyLen s) c⟩) := by
  unfold ConsoleUtils.mask_secret
  refine ⟨?_, ?_, ?_, ?_⟩
  · intro hk
    rw [if_neg (by omega)]
    by_cases hlen : (pyLen s : Int) ≤ keep
    · rw [if_pos hlen]
    · rw [if_neg hlen]
      rw [strRepeat_singleton]
      simp only [pyLen, pyTake, String.data_append, List.length_append,
        List.length_take, List.length_replicate]
      omega
  · intro hk hlen
    rw [if_neg (by omega), if_pos hlen]
  · intro hk hlen
    rw [if_neg (by omega), if_neg (by omega), strRepeat_singleton]
    have hkn : keep.toNat ≤ s.data.length := by
      simp only [pyLen] at hlen; omega
    have hlt : (List.take keep.toNat s.data).length = keep.toNat := by
      simp only [List.length_take]; omega
    constructor
    · apply String.ext
      simp only [pyTake, String.data_append]
      rw [List.take_left' hlt]
    · simp only [pyTake, String.data_append]
      rw [List.drop_left' hlt]
  · intro hk
    rw [if_pos hk, strRepeat_singleton]

/-- Witness for C3 at the specified scenario input. -/
theorem mask_secret_spec_witness :
    pyLen (ConsoleUtils.mask_secret "SuperSecretP@$$" 3 ⟨['*']⟩) = pyLen "SuperSecretP@$$"
  ∧ ConsoleUtils.mask_secret "SuperSecretP@$$" 3 ⟨['*']⟩ = "Sup************" := by
  have h := mask_secret_spec "SuperSecretP@$$" 3 '*'
  exact ⟨h.1 (by decide), by decide⟩

/-- Claim C8: `set_verbosity` never fails and silently clamps any integer
into `[0, 3]`: 99 stores 3, -5 stores 0, and in-range values are stored
unchanged; the stored level is always within `[0, 3]`. -/
theorem set_verbosity_clamps (st : ConsoleState) (level : Int) :
    (ConsoleUtils.set_verbosity st 99).config.verbosity = 3
  ∧ (ConsoleUtils.set_verbosity st (-5)).config.verbosity = 0
  ∧ (0 ≤ level → level ≤ 3 →
      (ConsoleUtils.set_verbosity st level).config.verbosity = level)
  ∧ 0 ≤ (ConsoleUtils.set_verbosity st level).config.verbosity
  ∧ (ConsoleUtils.set_verbosity st level).config.verbosity ≤ 3 := by
  simp only [ConsoleUtils.set_verbosity]
  refine ⟨by norm_num, by norm_num, fun h1 h2 => ?_, ?_, ?_⟩ <;> omega

/-- Witness for C8 on a concrete state and level. -/
theorem set_verbosity_clamps_witness :
    (ConsoleUtils.set_verbosity (darkState 1) 99).config.verbosity = 3
  ∧ (ConsoleUtils.set_verbosity (darkState 1) (-5)).config.verbosity = 0
  ∧ (ConsoleUtils.set_verbosity (darkState 1) 2).config.verbosity = 2 := by
  have h := set_verbosity_clamps (darkState 1) 2
  exact ⟨h.1, h.2.1, h.2.2.1 (by decide) (by decide)⟩

/-- Claim C10: the decision of `confirm` on the line read from terminal
input: an empty (post-strip) response yields the `default` argument;
otherwise the result is `true` exactly when the stripped, lower-cased
response is one of `y`, `yes`, `true`, `1`. -/
theorem confirm_spec (default : Bool) (response : String) :
    (pyStrip response = "" → ConsoleUtils.confirm default response = default)
  ∧ (pyStrip response ≠ "" →
      (ConsoleUtils.confirm default response = true ↔
        pyLower (pyStrip response) = "y" ∨ pyLower (pyStrip response) = "yes"
        ∨ pyLower (pyStrip response) = "true" ∨ pyLower (pyStrip response) = "1")) := by
  constructor
  · intro h
    simp [ConsoleUtils.confirm, (pyLower_eq_empty (pyStrip response)).mpr h]
  · intro h
    rw [ConsoleUtils.confirm]
    rw [if_neg (fun hc => h ((pyLower_eq_empty (pyStrip response)).mp hc))]
    simp only [Bool.or_eq_true, decide_eq_true_eq]
    tauto

/-- Witness for C10 on concrete responses. -/
theorem confirm_spec_witness :
    ConsoleUtils.confirm true "   " = true
  ∧ (ConsoleUtils.confirm false " YES " = true ↔
      pyLower (pyStrip " YES ") = "y" ∨ pyLower (pyStrip " YES ") = "yes"
      ∨ pyLower (pyStrip " YES ") = "true" ∨ pyLower (pyStrip " YES ") = "1") := by
  exact ⟨(confirm_spec true "   ").1 (by decide), (confirm_spec false " YES ").2 (by decide)⟩

/-- Counterexample to claim C4 as stated: the input `Double-Box` does not
resolve to the double border shape — it normalises to `DOUBLE_BOX`, which
is not in the mapping, so the unknown-name default `ROUNDED` applies. -/
theorem resolve_box_double_box_cex :
    resolve_box (some (BoxArg.name "Double-Box")) = BoxStyle.ROUNDED
    ∧ resolve_box (some (BoxArg.name "Double-Box")) ≠ BoxStyle.DOUBLE := by
  exact ⟨by decide, by decide⟩

/-- Claim C4 (amended): box-shape resolution is a pure, case-insensitive,
hyphen/space-normalised lookup into the fixed name set, defaulting to
`ROUNDED` for `None` or any unrecognised name (never raising); `double`
in any casing resolves to the double shape, while `Double-Box` (whose
normalised form is not a recognised name) and `nonexistent` both resolve
to `ROUNDED`. -/
theorem resolve_box_spec (s : String)
    (hUnknown : lookupKey boxNameMapping (normalizeBoxName s) = none) :
    resolve_box (some (BoxArg.name s)) = BoxStyle.ROUNDED
  ∧ resolve_box none = BoxStyle.ROUNDED
  ∧ resolve_box (some (BoxArg.name "double")) = BoxStyle.DOUBLE
  ∧ resolve_box (some (BoxArg.name "Double")) = BoxStyle.DOUBLE
  ∧ resolve_box (some (BoxArg.name "DOUBLE")) = BoxStyle.DOUBLE
  ∧ resolve_box (some (BoxArg.name "nonexistent")) = BoxStyle.ROUNDED
  ∧ resolve_box (some (BoxArg.name "rounded")) = BoxStyle.ROUNDED
  ∧ resolve_box (some (BoxArg.name "square")) = BoxStyle.SQUARE
  ∧ resolve_box (some (BoxArg.name "heavy")) = BoxStyle.HEAVY
  ∧ resolve_box (some (BoxArg.name "ascii")) = BoxStyle.ASCII
  ∧ resolve_box (some (BoxArg.name "minimal")) = BoxStyle.MINIMAL
  ∧ resolve_box (some (BoxArg.name "minimal-heavy")) = BoxStyle.MINIMAL_HEAVY_HEAD
  ∧ resolve_box (some (BoxArg.name "minimal double")) = BoxStyle.MINIMAL_DOUBLE_HEAD
  ∧ resolve_box (some (BoxArg.name "simple")) = BoxStyle.SIMPLE
  ∧ resolve_box (some (BoxArg.name "simple-heavy")) = BoxStyle.SIMPLE_HEAVY
  ∧ resolve_box (some (BoxArg.name "simple head")) = BoxStyle.SIMPLE_HEAD := by
  refine ⟨?_, by decide, by decide, by decide, by decide, by decide, by decide,
    by decide, by decide, by decide, by decide, by decide, by decide, by decide,
    by decide, by decide⟩
  simp [resolve_box, hUnknown]

/-- Witness for C4 (amended) at an unrecognised name. -/
theorem resolve_box_spec_witness :
    resolve_box (some (BoxArg.name "no-such-shape")) = BoxStyle.ROUNDED
  ∧ resolve_box (some (BoxArg.name "double")) = BoxStyle.DOUBLE := by
  have h := resolve_box_spec "no-such-shape" (by decide)
  exact ⟨h.1, h.2.2.1⟩

/-- Claim C6: an unknown theme identifier makes `set_theme` (and
construction) raise synchronously with a message enumerating the valid
identifiers, and leaves the facade state completely unchanged, so the
active theme still reads as the prior value. -/
theorem set_theme_unknown (st : ConsoleState) (theme : String)
    (customStyles : Option Styles) (emoji timestamps : Bool) (verbosity : Int)
    (enableTracebacks : Bool)
    (h : lookupKey presetThemes (pyLower theme) = none) :
    ConsoleUtils.runSetTheme st theme customStyles
      = (st, some (unknownThemeMessage theme))
  ∧ ConsoleUtils.init theme emoji timestamps verbosity enableTracebacks customStyles
      = Except.error (unknownThemeMessage theme)
  ∧ unknownThemeMessage theme
      = "Unknown theme \x27" ++ theme ++ "\x27. Choose from: " ++ "dark, light, mono" := by
  refine ⟨?_, ?_, rfl⟩
  · simp [ConsoleUtils.runSetTheme, ConsoleUtils.set_theme, h]
  · simp [ConsoleUtils.init, h]

/-- Witness for C6: `setTheme("neon")` on a dark facade fails with the
enumerating message and the active theme still reads `dark`. -/
theorem set_theme_unknown_witness :
    ConsoleUtils.runSetTheme (darkState 1) "neon" none
      = (darkState 1, some (unknownThemeMessage "neon"))
  ∧ unknownThemeMessage "neon"
      = "Unknown theme \x27neon\x27. Choose from: " ++ "dark, light, mono"
  ∧ (ConsoleUtils.runSetTheme (darkState 1) "neon" none).1.config.theme = "dark" := by
  have h := set_theme_unknown (darkState 1) "neon" none true true 1 true (by decide)
  refine ⟨h.1, ?_, ?_⟩
  · rw [h.2.2]; rfl
  · rw [h.1]
    rfl

/-- Claim C2: the verbosity gate truth table, on the message category
(represented by `info`, whose gate every message operation shares) and the
event category: verbosity 0 denies everything; verbosity 1 allows messages
and denies events of every level; verbosity 2 denies exactly `DEBUG`
events; verbosity 3 allows events of every level. -/
theorem verbosity_gate_table (st : ConsoleState) (now msg level : String)
    (hInfo : (lookupKey st.styles "info").isSome = true) :
    (st.config.verbosity = 0 →
      emits (ConsoleUtils.info st msg) = false
      ∧ emits (ConsoleUtils.event st now msg level) = false)
  ∧ (st.config.verbosity = 1 →
      emits (ConsoleUtils.info st msg) = true
      ∧ emits (ConsoleUtils.event st now msg level) = false)
  ∧ (st.config.verbosity = 2 →
      emits (ConsoleUtils.info st msg) = true
      ∧ (emits (ConsoleUtils.event st now msg level) = true ↔ pyUpper level ≠ "DEBUG"))
  ∧ (st.config.verbosity = 3 →
      emits (ConsoleUtils.info st msg) = true
      ∧ emits (ConsoleUtils.event st now msg level) = true) := by
  obtain ⟨d, hd⟩ := Option.isSome_iff_exists.mp hInfo
  refine ⟨fun h0 => ?_, fun h1 => ?_, fun h2 => ?_, fun h3 => ?_⟩
  · constructor <;> simp [ConsoleUtils.info, ConsoleUtils.event, emits, h0]
  · constructor <;>
      simp [ConsoleUtils.info, ConsoleUtils.event, emits, styleAt, hd, h1]
  · refine ⟨by simp [ConsoleUtils.info, emits, styleAt, hd, h2], ?_⟩
    by_cases hdbg : pyUpper level = "DEBUG"
    · simp [ConsoleUtils.event, emits, h2, hdbg]
    · simp [ConsoleUtils.event, emits, ConsoleUtils.eventColor, styleAt, hd, h2, hdbg]
  · refine ⟨by simp [ConsoleUtils.info, emits, styleAt, hd, h3], ?_⟩
    simp [ConsoleUtils.event, emits, ConsoleUtils.eventColor, styleAt, hd, h3]

/-- Witness for C2: the dark preset exercised at each verbosity level. -/
theorem verbosity_gate_table_witness :
    emits (ConsoleUtils.info (darkState 0) "m") = false
  ∧ emits (ConsoleUtils.event (darkState 0) "t" "m" "INFO") = false
  ∧ emits (ConsoleUtils.info (darkState 1) "m") = true
  ∧ emits (ConsoleUtils.event (darkState 1) "t" "m" "ERROR") = false
  ∧ (emits (ConsoleUtils.event (darkState 2) "t" "m" "DEBUG") = true
      ↔ pyUpper "DEBUG" ≠ "DEBUG")
  ∧ (emits (ConsoleUtils.event (darkState 2) "t" "m" "SUCCESS") = true
      ↔ pyUpper "SUCCESS" ≠ "DEBUG")
  ∧ emits (ConsoleUtils.event (darkState 3) "t" "m" "DEBUG") = true := by
  have h0 := verbosity_gate_table (darkState 0) "t" "m" "INFO" (by decide)
  have h1 := verbosity_gate_table (darkState 1) "t" "m" "ERROR" (by decide)
  have h2a := verbosity_gate_table (darkState 2) "t" "m" "DEBUG" (by decide)
  have h2b := verbosity_gate_table (darkState 2) "t" "m" "SUCCESS" (by decide)
  have h3 := verbosity_gate_table (darkState 3) "t" "m" "DEBUG" (by decide)
  exact ⟨(h0.1 rfl).1, (h0.1 rfl).2, (h1.2.1 rfl).1, (h1.2.1 rfl).2,
    (h2a.2.2.1 rfl).2, (h2b.2.2.1 rfl).2, (h3.2.2.2 rfl).2⟩

/-- Counterexample to claim C1 as stated: `spacer` has no verbosity gate
in the source, so at verbosity 0 it still emits a blank line to the
Renderer. -/
theorem spacer_not_gated_cex :
    ConsoleUtils.spacer (darkState 0) (SpacerSize.int 1) ≠ Except.ok [] := by
  intro h
  simp [ConsoleUtils.spacer] at h

/-- Claim C1 (amended): at verbosity 0 every rendering operation of the
facade except `spacer` returns immediately with no Renderer call at all;
`spacer` alone is not gated and emits its blank lines regardless of
verbosity. -/
theorem verbosity_zero_silent (st : ConsoleState)
    (h : st.config.verbosity = 0)
    (msg lbl text codeText language key value now level treeTitle : String)
    (style labelStyle lineStyle borderStyle headerStyle : Option String)
    (title : Option String) (boxArg : Option BoxArg) (expand wrap secret : Bool)
    (padding : Option Padding) (headers : List String) (rows : List (List String))
    (tableBox : BoxStyle) (data : List (String × String)) (jdata obj : PyData)
    (keep : Int) (mask : String) :
    ConsoleUtils.success st msg = Except.ok []
  ∧ ConsoleUtils.info st msg = Except.ok []
  ∧ ConsoleUtils.warning st msg = Except.ok []
  ∧ ConsoleUtils.error st msg = Except.ok []
  ∧ ConsoleUtils.event st now msg level = Except.ok []
  ∧ ConsoleUtils.header st msg style = Except.ok []
  ∧ ConsoleUtils.rule st lbl labelStyle lineStyle = Except.ok []
  ∧ ConsoleUtils.panel st msg title style borderStyle boxArg expand padding = Except.ok []
  ∧ ConsoleUtils.markdown st text = Except.ok []
  ∧ ConsoleUtils.code st codeText language title wrap = Except.ok []
  ∧ ConsoleUtils.table st headers rows title headerStyle expand tableBox = Except.ok []
  ∧ ConsoleUtils.dictionary st data title expand = Except.ok []
  ∧ ConsoleUtils.json st jdata title = Except.ok []
  ∧ ConsoleUtils.tree st obj treeTitle = Except.ok []
  ∧ ConsoleUtils.key_value st key value secret keep mask = Except.ok []
  ∧ ConsoleUtils.spacer st (SpacerSize.int 1) = Except.ok [Renderable.print ""] := by
  refine ⟨?_, ?_, ?_, ?_, ?_, ?_, ?_, ?_, ?_, ?_, ?_, ?_, ?_, ?_, ?_, ?_⟩
  · simp [ConsoleUtils.success, h]
  · simp [ConsoleUtils.info, h]
  · simp [ConsoleUtils.warning, h]
  · simp [ConsoleUtils.error, h]
  · simp [ConsoleUtils.event, h]
  · simp [ConsoleUtils.header, h]
  · simp [ConsoleUtils.rule, h]
  · simp [ConsoleUtils.panel, h]
  · simp [ConsoleUtils.markdown, h]
  · simp [ConsoleUtils.code, h]
  · simp [ConsoleUtils.table, h]
  · simp [ConsoleUtils.dictionary, h]
  · simp [ConsoleUtils.json, h]
  · simp [ConsoleUtils.tree, h]
  · simp [ConsoleUtils.key_value, h]
  · simp [ConsoleUtils.spacer]

/-- Witness for C1 (amended): the scenario facade (`dark`, verbosity 0)
with concrete arguments; `success("x")` produces no Renderer call while
`spacer` still prints a blank line. -/
theorem verbosity_zero_silent_witness :
    ConsoleUtils.success (darkState 0) "x" = Except.ok []
  ∧ ConsoleUtils.event (darkState 0) "t" "m" "INFO" = Except.ok []
  ∧ ConsoleUtils.panel (darkState 0) "m" none none none none false none = Except.ok []
  ∧ ConsoleUtils.spacer (darkState 0) (SpacerSize.int 1)
      = Except.ok [Renderable.print ""] := by
  have h := verbosity_zero_silent (darkState 0) rfl
    "x" "l" "t" "c" "python" "k" "v" "t" "INFO" "Structure"
    none none none none none none none false false false none [] [] BoxStyle.ROUNDED
    [] (PyData.str "j") (PyData.str "o") 3 "*"
  exact ⟨h.1, h.2.2.2.2.1, h.2.2.2.2.2.2.2.1, h.2.2.2.2.2.2.2.2.2.2.2.2.2.2.2⟩

/-- Claim C9: when the `event.<LEVEL>` role is absent from the active
merged mapping, the style used for the event line is the `info` role
descriptor, and the event still renders. -/
theorem event_role_fallback (st : ConsoleState) (now msg level d : String)
    (hRole : lookupKey st.styles ("event." ++ pyUpper level) = none)
    (hInfo : lookupKey st.styles "info" = some d)
    (hv : st.config.verbosity = 3) :
    ConsoleUtils.eventColor st.styles (pyUpper level) = Except.ok d
  ∧ emits (ConsoleUtils.event st now msg level) = true := by
  constructor
  · simp [ConsoleUtils.eventColor, styleAt, hInfo, hRole]
  · simp [ConsoleUtils.event, emits, ConsoleUtils.eventColor, styleAt, hInfo, hv]

/-- Witness for C9: the dark preset has no `event.DEBUG` role, so a DEBUG
event at verbosity 3 renders in the `info` style `bold cyan`. -/
theorem event_role_fallback_witness :
    ConsoleUtils.eventColor (darkState 3).styles (pyUpper "DEBUG") = Except.ok "bold cyan"
  ∧ emits (ConsoleUtils.event (darkState 3) "t" "m" "DEBUG") = true := by
  exact event_role_fallback (darkState 3) "t" "m" "DEBUG" "bold cyan" rfl rfl rfl

/-- Claim C5: the textual content of a non-suppressed event line is
`[color]` markup followed by `[<timestamp>] <LEVEL left-justified to 7
chars> <message>` when timestamps are enabled and
`<LEVEL left-justified to 7 chars> <message>` when disabled, the level
field being the upper-cased level padded to exactly 7 characters. -/
theorem event_line_format (st : ConsoleState) (now msg level c : String)
    (hLvl : pyUpper level = "DEBUG" ∨ pyUpper level = "INFO"
      ∨ pyUpper level = "SUCCESS" ∨ pyUpper level = "WARNING"
      ∨ pyUpper level = "ERROR")
    (hGate2 : 2 ≤ st.config.verbosity)
    (hGate3 : pyUpper level = "DEBUG" → 3 ≤ st.config.verbosity)
    (hColor : ConsoleUtils.eventColor st.styles (pyUpper level) = Except.ok c) :
    (st.config.timestamps = true → now ≠ "" →
      ConsoleUtils.event st now msg level
        = Except.ok [Renderable.print
            ("[" ++ c ++ "]"
              ++ ("[" ++ now ++ "] " ++ pyLjust (pyUpper level) 7 ++ " ")
              ++ "[/]" ++ msg)])
  ∧ (st.config.timestamps = false →
      ConsoleUtils.event st now msg level
        = Except.ok [Renderable.print
            ("[" ++ c ++ "]" ++ (pyLjust (pyUpper level) 7 ++ " ") ++ "[/]" ++ msg)])
  ∧ pyLen (pyLjust (pyUpper level) 7) = 7 := by
  have h0 : ¬ st.config.verbosity = 0 := by omega
  have h2 : ¬ st.config.verbosity < 2 := by omega
  have h3 : ¬ (st.config.verbosity < 3 ∧ pyUpper level = "DEBUG") := by
    rintro ⟨ha, hb⟩
    have := hGate3 hb
    omega
  refine ⟨fun hts hnow => ?_, fun hts => ?_, ?_⟩
  · simp [ConsoleUtils.event, h0, h2, h3, hts, hnow, hColor]
  · simp [ConsoleUtils.event, h0, h2, h3, hts, hColor]
  · rcases hLvl with h | h | h | h | h <;> rw [h] <;> decide

/-- Witness for C5: an `Info`-level event on the dark preset at verbosity
2 with timestamps enabled. -/
theorem event_line_format_witness :
    ConsoleUtils.event (darkState 2) "2025-01-01 00:00:00" "m" "Info"
      = Except.ok [Renderable.print
          ("[" ++ "cyan" ++ "]"
            ++ ("[" ++ "2025-01-01 00:00:00" ++ "] " ++ pyLjust (pyUpper "Info") 7 ++ " ")
            ++ "[/]" ++ "m")]
  ∧ pyLen (pyLjust (pyUpper "Info") 7) = 7 := by
  have h := event_line_format (darkState 2) "2025-01-01 00:00:00" "m" "Info" "cyan"
    (by decide) (by decide) (by decide) rfl
  exact ⟨h.1 rfl (by decide), h.2.2⟩

/-- Claim C7: theme resolution with custom overrides yields the override
descriptor for every overridden role, the preset descriptor for every
other role, and accepts roles unknown to the preset. -/
theorem resolve_overrides (preset overrides : Styles) (k v : String) :
    (lookupKey overrides k = some v →
      lookupKey (dictMerge preset overrides) k = some v)
  ∧ (lookupKey overrides k = none →
      lookupKey (dictMerge preset overrides) k = lookupKey preset k)
  ∧ (lookupKey preset k = none → lookupKey overrides k = some v →
      lookupKey (dictMerge preset overrides) k = some v) := by
  have happ : lookupKey (dictMerge preset overrides) k
      = ((lookupKey overrides k).elim (lookupKey preset k) fun x => some x) := by
    simp only [dictMerge, lookupKey, List.find?_append]
    cases overrides.find? (fun p => p.1 == k) <;> simp [Option.orElse]
  refine ⟨fun h => ?_, fun h => ?_, fun _ h => ?_⟩ <;> rw [happ, h] <;> rfl

/-- Witness for C7: the dark preset with an override for `info` and a
brand-new role. -/
theorem resolve_overrides_witness :
    lookupKey (dictMerge darkTheme [("info", "red"), ("shiny.role", "underline")]) "info"
      = some "red"
  ∧ lookupKey (dictMerge darkTheme [("info", "red"), ("shiny.role", "underline")]) "success"
      = lookupKey darkTheme "success"
  ∧ lookupKey (dictMerge darkTheme [("info", "red"), ("shiny.role", "underline")]) "shiny.role"
      = some "underline" := by
  exact ⟨(resolve_overrides darkTheme [("info", "red"), ("shiny.role", "underline")]
      "info" "red").1 (by decide),
    (resolve_overrides darkTheme [("info", "red"), ("shiny.role", "underline")]
      "success" "red").2.1 (by decide),
    (resolve_overrides darkTheme [("info", "red"), ("shiny.role", "underline")]
      "shiny.role" "underline").2.2 (by decide) (by decide)⟩


